import Mathlib

/-!
Verification of the groupcalc interactive group calculator.

The program builds a finite set of `i32` elements, designates a candidate
identity, and validates the four group axioms for the fixed binary operation
`(a + b) % m` where `m` is the cardinality of the element set.  The Rust
`HashSet<i32>` is modelled as a duplicate-free `List Int`; Rust's `%` on `i32`
is truncated remainder, modelled by `Int.tmod`.  Two's-complement wraparound of
`a + b` is not modelled (all inputs considered stay far from the `i32` bounds),
and the `usize`-to-`i32` cast of the modulus is the `Nat`-to-`Int` coercion.
-/

/-- The fixed operation from `run`: `|a: &i32, b: &i32, m: usize| (a + b) % m as i32`.
Rust `%` on signed integers is truncated remainder, i.e. `Int.tmod`. -/
def operation (a b : Int) (m : Nat) : Int :=
  (a + b).tmod (Int.ofNat m)

/-- `Group::is_closed`: every pairwise product lands back in the element set. -/
def is_closed (S : List Int) : Bool :=
  let modulus := S.length
  S.all fun x => S.all fun y => S.contains (operation x y modulus)

/-- `Group::has_identity`: the candidate identity is two-sided on every element. -/
def has_identity (S : List Int) (identity : Int) : Bool :=
  let modulus := S.length
  S.all fun x => operation x identity modulus == x && operation identity x modulus == x

/-- `Group::has_inverses`: every element has a two-sided inverse in the set. -/
def has_inverses (S : List Int) (identity : Int) : Bool :=
  let modulus := S.length
  S.all fun a => S.any fun b =>
    operation a b modulus == identity && operation b a modulus == identity

/-- `Group::is_associative`: the operation is associative on the element set. -/
def is_associative (S : List Int) : Bool :=
  let modulus := S.length
  S.all fun a => S.all fun b => S.all fun c =>
    operation (operation a b modulus) c modulus == operation a (operation b c modulus) modulus

/-- The error message pushed when closure fails. -/
def msgClosure : String := "Group is not closed under the operation."

/-- The error message pushed when associativity fails. -/
def msgAssociativity : String := "Operation is not associative."

/-- The error message pushed when the identity check fails. -/
def msgIdentity : String := "No valid identity element found."

/-- The error message pushed when the inverse check fails. -/
def msgInverse : String := "Not all elements have inverses."

/-- The `errors` vector accumulated by `Group::is_valid_group`, in push order. -/
def validationErrors (S : List Int) (identity : Int) : List String :=
  (if is_closed S then [] else [msgClosure]) ++
  (if is_associative S then [] else [msgAssociativity]) ++
  (if has_identity S identity then [] else [msgIdentity]) ++
  (if has_inverses S identity then [] else [msgInverse])

/-- `Group::is_valid_group`: `Ok(())` when no axiom failed, otherwise
`Err(anyhow!(errors.join("; ")))`. -/
def is_valid_group (S : List Int) (identity : Int) : Except String Unit :=
  match validationErrors S identity with
  | [] => Except.ok ()
  | errs => Except.error (String.intercalate "; " errs)

/-- The validated group value: element set plus identity (the operation field is
the fixed closure and carries no data). -/
structure GroupVal where
  elements : List Int
  identity : Int
deriving DecidableEq

/-- `Group::new`: build the candidate, run `is_valid_group`, and return the
group on success, the aggregated error otherwise. -/
def GroupVal.new (elements : List Int) (identity : Int) : Except String GroupVal :=
  match validationErrors elements identity with
  | [] => Except.ok { elements := elements, identity := identity }
  | errs => Except.error (String.intercalate "; " errs)

/-- C4: both worked examples validate: {0,1,2} with identity 0 (modulus 3) and
{0,1} with identity 0 (modulus 2) pass all four axiom checks and `Group::new`
returns a constructed group. -/
theorem c4_worked_examples_validate :
    GroupVal.new [0, 1, 2] 0 = Except.ok { elements := [0, 1, 2], identity := 0 } ∧
    GroupVal.new [0, 1] 0 = Except.ok { elements := [0, 1], identity := 0 } :=
  ⟨rfl, rfl⟩

/-- C5: the set {1,2,3} with identity 0 (not a member) fails validation, and the
identity axiom is among the reported failures. -/
theorem c5_identity_not_member_fails :
    (∃ msg, is_valid_group [1, 2, 3] 0 = Except.error msg) ∧
    msgIdentity ∈ validationErrors [1, 2, 3] 0 := by
  exact ⟨⟨String.intercalate "; " [msgClosure, msgIdentity], rfl⟩, by decide⟩

/-- C9: the fixed operation is Rust truncated remainder, so it returns negative
values on negative inputs (`operation (-1) 0 3 = -1`), and the all-negative set
{0, -1, -2} with identity 0 passes all four axiom checks. -/
theorem c9_truncated_remainder_negative_group :
    operation (-1) 0 3 = -1 ∧
    GroupVal.new [0, -1, -2] 0 = Except.ok { elements := [0, -1, -2], identity := 0 } :=
  ⟨rfl, rfl⟩

/-- C2 fails on the code: validating the empty set reports success (every axiom
check is vacuously true over an empty iterator), while the claim says success
must not be reported. -/
theorem c2_empty_set_reports_success :
    is_valid_group [] 0 = Except.ok () :=
  rfl

/-- Closure as a quantified proposition, matching the spec's reading. -/
def ClosedOn (S : List Int) : Prop :=
  ∀ x ∈ S, ∀ y ∈ S, operation x y S.length ∈ S

/-- Associativity as a quantified proposition. -/
def AssociativeOn (S : List Int) : Prop :=
  ∀ a ∈ S, ∀ b ∈ S, ∀ c ∈ S,
    operation (operation a b S.length) c S.length =
      operation a (operation b c S.length) S.length

/-- Two-sided identity as a quantified proposition. -/
def IdentityOn (S : List Int) (e : Int) : Prop :=
  ∀ x ∈ S, operation x e S.length = x ∧ operation e x S.length = x

/-- Existence of two-sided inverses as a quantified proposition. -/
def InversesOn (S : List Int) (e : Int) : Prop :=
  ∀ a ∈ S, ∃ b ∈ S, operation a b S.length = e ∧ operation b a S.length = e

theorem is_closed_iff (S : List Int) : is_closed S = true ↔ ClosedOn S := by
  simp [is_closed, ClosedOn, List.all_eq_true]

theorem is_associative_iff (S : List Int) : is_associative S = true ↔ AssociativeOn S := by
  simp [is_associative, AssociativeOn, List.all_eq_true]

theorem has_identity_iff (S : List Int) (e : Int) :
    has_identity S e = true ↔ IdentityOn S e := by
  simp [has_identity, IdentityOn, List.all_eq_true]

theorem has_inverses_iff (S : List Int) (e : Int) :
    has_inverses S e = true ↔ InversesOn S e := by
  simp [has_inverses, InversesOn, List.all_eq_true, List.any_eq_true]

theorem errors_nil_iff (S : List Int) (e : Int) :
    validationErrors S e = [] ↔
      (is_closed S ∧ is_associative S ∧ has_identity S e ∧ has_inverses S e) := by
  unfold validationErrors
  cases h1 : is_closed S <;> cases h2 : is_associative S <;>
    cases h3 : has_identity S e <;> cases h4 : has_inverses S e <;> simp

theorem valid_iff_errors_nil (S : List Int) (e : Int) :
    is_valid_group S e = Except.ok () ↔ validationErrors S e = [] := by
  unfold is_valid_group
  cases h : validationErrors S e <;> simp

/-- C1: `is_valid_group` (hence `Group::new`) succeeds if and only if the set is
closed, the operation is associative on it, the candidate is a two-sided
identity for every element, and every element has a two-sided inverse in the
set, all with the fixed operation and modulus equal to the cardinality. -/
theorem c1_validate_ok_iff_axioms (S : List Int) (e : Int) :
    is_valid_group S e = Except.ok () ↔
      (ClosedOn S ∧ AssociativeOn S ∧ IdentityOn S e ∧ InversesOn S e) := by
  rw [valid_iff_errors_nil, errors_nil_iff, is_closed_iff, is_associative_iff,
    has_identity_iff, has_inverses_iff]

/-- ASCII whitespace recognised when trimming an input line (the inputs
considered contain no exotic Unicode whitespace). -/
def isWs (c : Char) : Bool :=
  c = ' ' || c = '\t' || c = '\n' || c = '\r'

/-- Rust's `str::trim`, applied by `user_prompt` to every line read. -/
def trimLine (s : String) : String :=
  String.mk (((s.data.dropWhile isWs).reverse.dropWhile isWs).reverse)

/-- `i32::from_str`: optional sign, then one or more ASCII digits, within the
`i32` range; anything else is an error. -/
def parseI32 (s : String) : Option Int :=
  match s.data with
  | [] => none
  | c :: cs =>
    let signDigits : Bool × List Char :=
      if c = '-' then (true, cs)
      else if c = '+' then (false, cs)
      else (false, c :: cs)
    if signDigits.2.isEmpty then none
    else if signDigits.2.all Char.isDigit then
      let n : Nat := signDigits.2.foldl (fun acc d => acc * 10 + (d.toNat - 48)) 0
      if signDigits.1 then
        if n ≤ 2 ^ 31 then some (-(n : Int)) else none
      else
        if n ≤ 2 ^ 31 - 1 then some (n : Int) else none
    else none

/-- Session state of the command loop: the working `HashSet` of elements and
the optional identity slot. -/
structure St where
  elements : List Int
  identity : Option Int
deriving DecidableEq

/-- `HashSet::insert`: adds the element unless it is already present. -/
def insertElem (xs : List Int) (x : Int) : List Int :=
  if x ∈ xs then xs else xs ++ [x]

/-- The `add` arm of the loop: parse the prompted line; on success insert the
element, on failure report and leave the set unchanged. -/
def addStep (st : St) (s : String) : St :=
  match parseI32 (trimLine s) with
  | some n => { st with elements := insertElem st.elements n }
  | none => st

/-- The `identity` arm of the loop: parse the prompted line; on success store
the identity, on failure report and leave the slot unchanged. -/
def identityStep (st : St) (s : String) : St :=
  match parseI32 (trimLine s) with
  | some n => { st with identity := some n }
  | none => st

/-- The outcome of one `create` command: `none` when the identity slot is
unset (only a message is printed), otherwise the result of `Group::new` on a
clone of the current set with the stored identity. -/
def createVerdict (st : St) : Option (Except String GroupVal) :=
  match st.identity with
  | some e => some (GroupVal.new st.elements e)
  | none => none

/-- Command names dispatched by `run`. -/
def CMD_ADD : String := "add"

def CMD_IDENTITY : String := "identity"

def CMD_LIST : String := "list"

def CMD_HELP : String := "help"

def CMD_CREATE : String := "create"

def CMD_EXIT : String := "exit"

/-- The `run` command loop over a finite list of input lines: each iteration
reads and trims one line, dispatches on the whole line, and the `add` and
`identity` arms prompt for (read) one further line.  Reading past the end of
the input yields the empty string, as `read_line` does at end of stream.  The
returned trace records the verdict of every `create` command. -/
def run : St → List String → St × List (Option (Except String GroupVal))
  | st, [] => (st, [])
  | st, line :: rest =>
    let cmd := trimLine line
    if cmd = CMD_ADD then
      match rest with
      | [] => (addStep st "", [])
      | s :: rest2 => run (addStep st s) rest2
    else if cmd = CMD_IDENTITY then
      match rest with
      | [] => (identityStep st "", [])
      | s :: rest2 => run (identityStep st s) rest2
    else if cmd = CMD_CREATE then
      ((run st rest).1, createVerdict st :: (run st rest).2)
    else if cmd = CMD_EXIT then (st, [])
    else run st rest

theorem run_create_cons (st : St) (rest : List String) :
    run st (CMD_CREATE :: rest) = ((run st rest).1, createVerdict st :: (run st rest).2) := by
  cases rest <;> rfl

/-- C10: the create command never mutates session state: the validator runs on
a clone of the element set and a copy of the identity, so the state seen by the
rest of the session is exactly the state before the command. -/
theorem c10_create_preserves_state (st : St) (rest : List String) :
    (run st (CMD_CREATE :: rest)).1 = (run st rest).1 ∧ (run st [CMD_CREATE]).1 = st :=
  ⟨by cases rest <;> rfl, rfl⟩

/-- C7: validation is deterministic and idempotent: any number of consecutive
create commands leaves the state unchanged and records the same verdict for
the same (set, operation, identity) triple every time. -/
theorem c7_validation_idempotent (st : St) (n : Nat) :
    run st (List.replicate n CMD_CREATE) = (st, List.replicate n (createVerdict st)) := by
  induction n with
  | zero => rfl
  | succ k ih =>
    rw [List.replicate_succ, run_create_cons, ih]
    simp [List.replicate_succ]

/-- C3 fails on the code: the loop dispatches on the entire trimmed line (and
prompts separately for the element), so the single line `add 5 5` is an
unknown command and the working set stays empty, not of size 1. -/
theorem c3_counterexample_add_5_5_is_unknown :
    (run { elements := [], identity := none } ["add 5 5"]).1.elements.length ≠ 1 := by
  decide

/-- C3 amended: the line `add 5 5` matches no command and leaves the session
state unchanged; adding 5 twice through two consecutive `add` commands yields
a working set with exactly the one element 5 — duplicates collapse. -/
theorem c3_amended_duplicates_collapse :
    (∀ st : St, run st ["add 5 5"] = (st, [])) ∧
    (run { elements := [], identity := none } ["add", "5", "add", "5"]).1.elements = [5] :=
  ⟨fun _ => rfl, by decide⟩

/-- C8: the identity arm stores the parsed integer exactly when parsing
succeeds; on a non-integer (or empty) argument the previous identity — indeed
the whole state — is left unchanged. -/
theorem c8_identity_overwritten_only_on_parse (st : St) (s : String) :
    (parseI32 (trimLine s) = none → (run st [CMD_IDENTITY, s]).1 = st) ∧
    (∀ n : Int, parseI32 (trimLine s) = some n →
      (run st [CMD_IDENTITY, s]).1 = { st with identity := some n }) := by
  have hrun : run st [CMD_IDENTITY, s] = (identityStep st s, []) := rfl
  refine ⟨fun h => ?_, fun n h => ?_⟩ <;> simp [hrun, identityStep, h]

/-- Witness for C8 at concrete inputs: a non-integer argument leaves the stored
identity 7 untouched, and a parsed 5 overwrites it. -/
theorem c8_identity_witness :
    (run { elements := [3], identity := some 7 } [CMD_IDENTITY, "xy"]).1 =
      { elements := [3], identity := some 7 } ∧
    (run { elements := [3], identity := some 7 } [CMD_IDENTITY, "5"]).1 =
      { elements := [3], identity := some 5 } :=
  ⟨(c8_identity_overwritten_only_on_parse { elements := [3], identity := some 7 } "xy").1
      (by decide),
   (c8_identity_overwritten_only_on_parse { elements := [3], identity := some 7 } "5").2 5
      (by decide)⟩

/-- C6: the error of `is_valid_group` aggregates every failing axiom: each
unsatisfied axiom contributes its description to the error list, and the
returned error joins that whole list, not just its first entry. -/
theorem c6_error_aggregates_all_failures (S : List Int) (e : Int) :
    (is_closed S = false → msgClosure ∈ validationErrors S e) ∧
    (is_associative S = false → msgAssociativity ∈ validationErrors S e) ∧
    (has_identity S e = false → msgIdentity ∈ validationErrors S e) ∧
    (has_inverses S e = false → msgInverse ∈ validationErrors S e) ∧
    (validationErrors S e ≠ [] →
      is_valid_group S e = Except.error (String.intercalate "; " (validationErrors S e))) := by
  refine ⟨fun h => ?_, fun h => ?_, fun h => ?_, fun h => ?_, fun h => ?_⟩
  · simp [validationErrors, h]
  · simp [validationErrors, h]
  · simp [validationErrors, h]
  · simp [validationErrors, h]
  · unfold is_valid_group
    cases hv : validationErrors S e with
    | nil => exact absurd hv h
    | cons a t => rfl

/-- Witness for C6 at a concrete input failing all four axioms: the set
{-1, 1} with candidate identity 5 is not closed, not associative, has no
identity and no inverses, and all four descriptions appear in the error. -/
theorem c6_witness_all_four_reported :
    msgClosure ∈ validationErrors [-1, 1] 5 ∧
    msgAssociativity ∈ validationErrors [-1, 1] 5 ∧
    msgIdentity ∈ validationErrors [-1, 1] 5 ∧
    msgInverse ∈ validationErrors [-1, 1] 5 ∧
    is_valid_group [-1, 1] 5 =
      Except.error (String.intercalate "; " (validationErrors [-1, 1] 5)) :=
  ⟨(c6_error_aggregates_all_failures [-1, 1] 5).1 (by decide),
   (c6_error_aggregates_all_failures [-1, 1] 5).2.1 (by decide),
   (c6_error_aggregates_all_failures [-1, 1] 5).2.2.1 (by decide),
   (c6_error_aggregates_all_failures [-1, 1] 5).2.2.2.1 (by decide),
   (c6_error_aggregates_all_failures [-1, 1] 5).2.2.2.2 (by decide)⟩

/-- The fixed operation with an explicit guard for the place Rust `%` would
panic: `none` exactly when the modulus (the set cardinality) is zero. Used to
show the validator never evaluates the operation at modulus 0. -/
def operationChecked (a b : Int) (m : Nat) : Option Int :=
  if m = 0 then none else some ((a + b).tmod (Int.ofNat m))

/-- `is_closed` over the guarded operation. -/
def is_closedChecked (S : List Int) : Option Bool :=
  S.allM fun x => S.allM fun y =>
    (operationChecked x y S.length).map fun r => S.contains r

/-- `has_identity` over the guarded operation. -/
def has_identityChecked (S : List Int) (e : Int) : Option Bool :=
  S.allM fun x => do
    let r1 ← operationChecked x e S.length
    let r2 ← operationChecked e x S.length
    pure (r1 == x && r2 == x)

/-- `has_inverses` over the guarded operation. -/
def has_inversesChecked (S : List Int) (e : Int) : Option Bool :=
  S.allM fun a => S.anyM fun b => do
    let r1 ← operationChecked a b S.length
    let r2 ← operationChecked b a S.length
    pure (r1 == e && r2 == e)

/-- `is_associative` over the guarded operation. -/
def is_associativeChecked (S : List Int) : Option Bool :=
  S.allM fun a => S.allM fun b => S.allM fun c => do
    let ab ← operationChecked a b S.length
    let bc ← operationChecked b c S.length
    let l ← operationChecked ab c S.length
    let r ← operationChecked a bc S.length
    pure (l == r)

/-- `is_valid_group` over the guarded operation: `none` would mean some axiom
check actually evaluated the operation at modulus 0. -/
def is_valid_groupChecked (S : List Int) (e : Int) : Option (Except String Unit) := do
  let c ← is_closedChecked S
  let a ← is_associativeChecked S
  let i ← has_identityChecked S e
  let v ← has_inversesChecked S e
  let errs :=
    (if c then [] else [msgClosure]) ++ (if a then [] else [msgAssociativity]) ++
      (if i then [] else [msgIdentity]) ++ (if v then [] else [msgInverse])
  pure (if errs.isEmpty then Except.ok () else Except.error (String.intercalate "; " errs))

/-- C2 amended: validating the empty element set with any identity reports
success — every axiom check quantifies over an empty iterator, so all hold
vacuously — and the zero modulus is never used in a division, so no crash
occurs: the guarded validator also returns a defined (successful) result. -/
theorem c2_amended_empty_set_vacuous_success (e : Int) :
    is_valid_group [] e = Except.ok () ∧
    is_valid_groupChecked [] e = some (Except.ok ()) :=
  ⟨rfl, rfl⟩
